import Mathlib

/-!
Shallow embedding of the BIM validation core in `src/main.py`:
rule parsing (`parse_xml_requirements`), name-based categorization,
the `CountOnly` performance evaluator (`check_performance`), the
attribute-equality location evaluator (`check_location`) and the
aggregating driver (`run_all_checks`).

Python conventions modelled explicitly:
- XML attribute lookup (`Element.get`) yields `Option String` (absent
  attribute -> `none`, i.e. Python `None`).
- A model record is a property bag; `dict.get` returns the stored value
  or `None`.  Values are modelled by the tagged variant `PyVal`
  (string / int / bool / None); `dict.get` on an absent key collapses to
  `PyVal.vNone`, exactly as Python returns `None` in both cases.
- Exceptions the source can raise are surfaced as `Except PyErr`:
  `AttributeError` from `None.lower()`, `IndexError` from
  `check['filters'][0]` on an empty list, `ValueError` / `TypeError`
  from `int(...)`.
-/

set_option autoImplicit false

namespace BimCheck

/-- Python exceptions the source can raise while parsing or evaluating. -/
inductive PyErr where
  | attributeError
  | indexError
  | valueError
  | typeError
deriving DecidableEq

/-- A Python value stored in a record's property bag
(string / int / bool / None variant, per the spec's data-model note). -/
inductive PyVal where
  | vStr (s : String)
  | vInt (n : Int)
  | vBool (b : Bool)
  | vNone
deriving DecidableEq

/-- A model record: an ordered property bag mapping string keys to values. -/
def Record := List (String × PyVal)

/-- First-match association lookup on a record. -/
def lookupRec : Record → String → Option PyVal
  | [], _ => none
  | (k, v) :: rest, key => if k == key then some v else lookupRec rest key

/-- Python `dict.get(key)`: the stored value, or `None` when absent. -/
def pyGet (r : Record) (k : String) : PyVal :=
  (lookupRec r k).getD PyVal.vNone

/-- `dict.get` applied through an optional key (`obj.get(filter['property'])`
where the `Property` attribute may be absent); record keys are strings, so a
`None` key is never present and the lookup yields `None`. -/
def pyGetF (r : Record) : Option String → PyVal
  | none => PyVal.vNone
  | some k => pyGet r k

/-- Python truthiness of a stored value (`if obj.get(...)`). -/
def truthy : PyVal → Bool
  | PyVal.vStr s => !(s == "")
  | PyVal.vInt n => !(n == 0)
  | PyVal.vBool b => b
  | PyVal.vNone => false

/-- Python `==` between a record value and an XML attribute value
(`Option String`): `None == None` is `True`, a string equals an equal
string, and a value of any other type never equals a string. -/
def pyValEq : PyVal → Option String → Bool
  | PyVal.vNone, none => true
  | PyVal.vStr s, some v => s == v
  | _, _ => false

/-- Accumulate decimal digits; fails on the first non-digit. -/
def digitsNatAux (acc : Nat) : List Char → Option Nat
  | [] => some acc
  | c :: cs => if c.isDigit then digitsNatAux (10 * acc + (c.toNat - 48)) cs else none

/-- Value of a non-empty all-digit character list. -/
def digitsNat : List Char → Option Nat
  | [] => none
  | c :: cs => digitsNatAux 0 (c :: cs)

/-- Python `int(s)` on a string: surrounding whitespace stripped, optional
sign, then decimal digits (PEP 515 underscore grouping is not modelled). -/
def str2int (s : String) : Option Int :=
  let cs := (((s.data.dropWhile Char.isWhitespace).reverse.dropWhile
      Char.isWhitespace).reverse)
  match cs with
  | '-' :: ds => (digitsNat ds).map (fun n => -(n : Int))
  | '+' :: ds => (digitsNat ds).map (fun n => (n : Int))
  | ds => (digitsNat ds).map (fun n => (n : Int))

/-- Python `int(...)` on an optional attribute value: `int(None)` raises
`TypeError`, a non-numeric string raises `ValueError`. -/
def pyInt : Option String → Except PyErr Int
  | none => Except.error PyErr.typeError
  | some s =>
    match str2int s with
    | some n => Except.ok n
    | none => Except.error PyErr.valueError

/-- A parsed filter: the `Property` / `Condition` / `Value` attributes of a
`Filter` element (each may be absent). -/
structure BFilter where
  property : Option String
  condition : Option String
  value : Option String
deriving DecidableEq

/-- A parsed check (the `check_info` dict): attributes of a `Check` element
plus its filters. -/
structure Check where
  name : Option String
  description : Option String
  type : Option String
  condition : Option String
  failure_message : Option String
  filters : List BFilter
deriving DecidableEq

/-- One entry of the result list built by the evaluators.  `result` is the
numeric count, present only on performance results. -/
structure CheckResult where
  name : Option String
  result : Option Nat
  status : String
  message : Option String
deriving DecidableEq

/-- A `Filter` XML element (its three attributes, via `Element.get`). -/
structure XFilter where
  property : Option String
  condition : Option String
  value : Option String
deriving DecidableEq

/-- A `Check` XML element: its attributes (via `Element.get`) and its
`Filter` children in document order. -/
structure XCheck where
  checkName : Option String
  description : Option String
  checkType : Option String
  resultCondition : Option String
  failureMessage : Option String
  filters : List XFilter
deriving DecidableEq

/-- Extraction of `filter_info` from a `Filter` element. -/
def toBFilter (f : XFilter) : BFilter :=
  { property := f.property, condition := f.condition, value := f.value }

/-- Extraction of `check_info` from a `Check` element (lines 26-42). -/
def toCheckInfo (xc : XCheck) : Check :=
  { name := xc.checkName
    description := xc.description
    type := xc.checkType
    condition := xc.resultCondition
    failure_message := xc.failureMessage
    filters := xc.filters.map toBFilter }

/-- The five rule categories of the `checks` dictionary. -/
inductive Category where
  | performance
  | location
  | views
  | family
  | custom
deriving DecidableEq

/-- The `checks` dictionary: one ordered rule list per category. -/
structure Checks where
  performance : List Check
  location : List Check
  views : List Check
  family : List Check
  custom : List Check
deriving DecidableEq

/-- The initial empty `checks` dictionary (lines 17-23). -/
def emptyChecks : Checks :=
  { performance := [], location := [], views := [], family := [], custom := [] }

/-- Is `pat` a leading segment of `l`? -/
def leadSeg : List Char → List Char → Bool
  | [], _ => true
  | _ :: _, [] => false
  | a :: as, b :: bs => a == b && leadSeg as bs

/-- Is `pat` a contiguous segment of `l` (Python `pat in s`)? -/
def hasSub (pat : List Char) : List Char → Bool
  | [] => leadSeg pat []
  | c :: rest => leadSeg pat (c :: rest) || hasSub pat rest

/-- The characters of `name.lower()` (per-character ASCII lowering, as
Python's `str.lower` does on the ASCII names involved). -/
def lowerChars (s : String) : List Char :=
  s.data.map Char.toLower

/-- Category assignment by the if/elif chain of lines 45-54:
case-insensitive substring match, in the fixed priority order
performance, location, view, family, defaulting to custom. -/
def categorize (name : String) : Category :=
  let n := lowerChars name
  if hasSub "performance".data n then Category.performance
  else if hasSub "location".data n then Category.location
  else if hasSub "view".data n then Category.views
  else if hasSub "family".data n then Category.family
  else Category.custom

/-- Append a check to its category's list (the `checks[...]` appends). -/
def addCheck (ch : Checks) (cat : Category) (c : Check) : Checks :=
  match cat with
  | Category.performance => { ch with performance := ch.performance ++ [c] }
  | Category.location => { ch with location := ch.location ++ [c] }
  | Category.views => { ch with views := ch.views ++ [c] }
  | Category.family => { ch with family := ch.family ++ [c] }
  | Category.custom => { ch with custom := ch.custom ++ [c] }

/-- The `for check in root.findall(...)` loop of `parse_xml_requirements`:
a `Check` element without a `CheckName` attribute makes
`check_info['name'].lower()` raise `AttributeError` (`None` has no
`lower`), aborting the whole parse. -/
def parseAux (acc : Checks) : List XCheck → Except PyErr Checks
  | [] => Except.ok acc
  | xc :: rest =>
    match xc.checkName with
    | none => Except.error PyErr.attributeError
    | some nm => parseAux (addCheck acc (categorize nm) (toCheckInfo xc)) rest

/-- `parse_xml_requirements` (lines 13-56), applied to the document-order
list of `Check` elements the XML parser found. -/
def parse_xml_requirements (xcs : List XCheck) : Except PyErr Checks :=
  parseAux emptyChecks xcs

/-- `count` of records whose value at property `p` is present and truthy
(line 64: `sum(1 for obj in model_data if obj.get(...))`). -/
def countTruthy (model_data : List Record) (p : Option String) : Nat :=
  model_data.countP (fun obj => truthy (pyGetF obj p))

/-- `check_performance` (lines 59-71).  A check whose `type` is not
`"CountOnly"` is skipped.  For a `CountOnly` check, `check['filters'][0]`
raises `IndexError` when the filter list is empty, and
`int(check['filters'][0]['value'])` raises `ValueError` / `TypeError`
when the value is non-numeric / absent; either exception propagates and
aborts the whole call. -/
def check_performance (model_data : List Record) : List Check → Except PyErr (List CheckResult)
  | [] => Except.ok []
  | c :: rest =>
    if c.type == some "CountOnly" then
      match c.filters with
      | [] => Except.error PyErr.indexError
      | f :: _ =>
        match pyInt f.value with
        | Except.error e => Except.error e
        | Except.ok t =>
          let count := countTruthy model_data f.property
          match check_performance model_data rest with
          | Except.error e => Except.error e
          | Except.ok rs =>
            Except.ok
              ({ name := c.name
                 result := some count
                 status := if (count : Int) ≤ t then "Passed" else "Failed"
                 message := if (count : Int) > t then c.failure_message else some "" } :: rs)
    else check_performance model_data rest

/-- The inner `for filter_ in check['filters']` loop of `check_location`:
`true` when every filter's value equals the record's property value,
stopping at the first mismatch. -/
def recordPassed (obj : Record) : List BFilter → Bool
  | [] => true
  | f :: fs =>
    if pyValEq (pyGetF obj f.property) f.value then recordPassed obj fs else false

/-- The outer `for obj in model_data` loop of `check_location`: `true` when
every record passes every filter, stopping at the first failing record. -/
def locPassedAux (fs : List BFilter) : List Record → Bool
  | [] => true
  | obj :: rest => if recordPassed obj fs then locPassedAux fs rest else false

/-- `check_location` (lines 74-91): one result per check, in order,
regardless of the check's `type`. -/
def check_location (model_data : List Record) (checks : List Check) : List CheckResult :=
  checks.map (fun c =>
    let passed := locPassedAux c.filters model_data
    { name := c.name
      result := none
      status := if passed then "Passed" else "Failed"
      message := if passed then some "" else c.failure_message })

/-- `run_all_checks` (lines 94-100): parse, run the performance checks on
the performance category, the location checks on the location category,
and concatenate.  An exception anywhere aborts the run with no results. -/
def run_all_checks (model_data : List Record) (xcs : List XCheck) : Except PyErr (List CheckResult) :=
  match parse_xml_requirements xcs with
  | Except.error e => Except.error e
  | Except.ok ch =>
    match check_performance model_data ch.performance with
    | Except.error e => Except.error e
    | Except.ok p => Except.ok (p ++ check_location model_data ch.location)

/-! ### Concrete rule fixtures used by witnesses and counterexamples -/

/-- A well-formed performance `CountOnly` rule with threshold 10. -/
def perfGood : XCheck :=
  { checkName := some "performanceGoodCount", description := none,
    checkType := some "CountOnly", resultCondition := none,
    failureMessage := some "too many walls",
    filters := [{ property := some "IsWall", condition := none, value := some "10" }] }

/-- A performance `CountOnly` rule whose threshold string is not numeric. -/
def perfBadThreshold : XCheck :=
  { checkName := some "performanceBadThreshold", description := none,
    checkType := some "CountOnly", resultCondition := none,
    failureMessage := some "too many doors",
    filters := [{ property := some "IsDoor", condition := none, value := some "ten" }] }

/-- A performance `CountOnly` rule with no filters at all. -/
def perfNoFilters : XCheck :=
  { checkName := some "performanceNoFilters", description := none,
    checkType := some "CountOnly", resultCondition := none,
    failureMessage := some "misconfigured", filters := [] }

/-- A well-formed location rule requiring `Level == "L1"`. -/
def locLevel : XCheck :=
  { checkName := some "locationLevelCheck", description := none,
    checkType := some "AttributeEquality", resultCondition := none,
    failureMessage := some "wrong level",
    filters := [{ property := some "Level", condition := none, value := some "L1" }] }

/-- A location-category rule with an unrecognized check type. -/
def locBogusType : XCheck :=
  { checkName := some "locationBogusType", description := none,
    checkType := some "TotallyUnknownType", resultCondition := none,
    failureMessage := some "msg", filters := [] }

/-- A rule whose name matches none of the category substrings. -/
def customRule : XCheck :=
  { checkName := some "miscellaneous", description := none,
    checkType := some "CountOnly", resultCondition := none,
    failureMessage := some "m", filters := [] }

/-- A `Check` element without a `CheckName` attribute. -/
def unnamedCheck : XCheck :=
  { checkName := none, description := none, checkType := none,
    resultCondition := none, failureMessage := none, filters := [] }

/-- A parsed performance rule whose check type is not `CountOnly`. -/
def cNoCount : Check :=
  { name := some "performanceOther", description := none,
    type := some "SomethingElse", condition := none,
    failure_message := none, filters := [] }

/-- A rule whose name contains `view` (and neither `performance` nor
`location`). -/
def viewRule : XCheck :=
  { checkName := some "sheetView", description := none, checkType := none,
    resultCondition := none, failureMessage := none, filters := [] }

/-- The first filter of `perfGood`. -/
def fW : BFilter :=
  { property := some "IsWall", condition := none, value := some "10" }

/-- A two-record model: one truthy `IsWall`, one falsy. -/
def modelW : List Record :=
  [[("IsWall", PyVal.vBool true)], [("IsWall", PyVal.vInt 0)]]

/-- A record that has no `Level` property. -/
def objW : Record := [("Other", PyVal.vStr "x")]

/-- A mixed rule file: one performance rule, one location rule, one
custom-category rule. -/
def xcsW : List XCheck := [perfGood, locLevel, customRule]

/-- The `checks` dictionary `xcsW` parses to. -/
def chW : Checks :=
  { performance := [toCheckInfo perfGood], location := [toCheckInfo locLevel],
    views := [], family := [], custom := [toCheckInfo customRule] }

/-- The performance results of `chW` on an empty model. -/
def pW : List CheckResult :=
  [{ name := some "performanceGoodCount", result := some 0,
     status := "Passed", message := some "" }]

/-! ### Helper lemmas -/

theorem recordPassed_true_iff (obj : Record) (fs : List BFilter) :
    recordPassed obj fs = true ↔
      ∀ f ∈ fs, pyValEq (pyGetF obj f.property) f.value = true := by
  induction fs with
  | nil => simp [recordPassed]
  | cons f fs ih =>
    cases h : pyValEq (pyGetF obj f.property) f.value with
    | true => simp [recordPassed, h, ih]
    | false => simp [recordPassed, h]

theorem recordPassed_mid_false (obj : Record) (l1 l2 : List BFilter) (f : BFilter)
    (h : pyValEq (pyGetF obj f.property) f.value = false) :
    recordPassed obj (l1 ++ f :: l2) = false := by
  induction l1 with
  | nil => simp [recordPassed, h]
  | cons g l1 ih =>
    cases hg : pyValEq (pyGetF obj g.property) g.value with
    | true => simp [recordPassed, hg, ih]
    | false => simp [recordPassed, hg]

theorem locPassedAux_true_iff (fs : List BFilter) (ms : List Record) :
    locPassedAux fs ms = true ↔ ∀ obj ∈ ms, recordPassed obj fs = true := by
  induction ms with
  | nil => simp [locPassedAux]
  | cons obj rest ih =>
    cases h : recordPassed obj fs with
    | true => simp [locPassedAux, h, ih]
    | false => simp [locPassedAux, h]

theorem locPassedAux_mid_false (fs : List BFilter) (pre suf : List Record)
    (obj : Record) (h : recordPassed obj fs = false) :
    locPassedAux fs (pre ++ obj :: suf) = false := by
  induction pre with
  | nil => simp [locPassedAux, h]
  | cons o pre ih =>
    cases ho : recordPassed o fs with
    | true => simp [locPassedAux, ho, ih]
    | false => simp [locPassedAux, ho]

theorem locPassedAux_nil (ms : List Record) : locPassedAux [] ms = true := by
  induction ms with
  | nil => rfl
  | cons o rest ih => simp [locPassedAux, recordPassed, ih]

theorem check_performance_names (model : List Record) :
    ∀ (checks : List Check) (p : List CheckResult),
      check_performance model checks = Except.ok p →
      p.map CheckResult.name
        = (checks.filter (fun c => c.type == some "CountOnly")).map Check.name := by
  intro checks
  induction checks with
  | nil =>
    intro p hp
    simp [check_performance] at hp
    simp [← hp]
  | cons c rest ih =>
    intro p hp
    cases hty : c.type == some "CountOnly" with
    | false =>
      simp only [check_performance, hty, Bool.false_eq_true, if_false] at hp
      simp [List.filter_cons, hty, ih p hp]
    | true =>
      simp only [check_performance, hty, if_true] at hp
      cases hf : c.filters with
      | nil => rw [hf] at hp; exact absurd hp (by simp)
      | cons f fs =>
        simp only [hf] at hp
        cases hi : pyInt f.value with
        | error e => rw [hi] at hp; exact absurd hp (by simp)
        | ok t =>
          rw [hi] at hp
          cases hr : check_performance model rest with
          | error e => rw [hr] at hp; exact absurd hp (by simp)
          | ok rs =>
            rw [hr] at hp
            simp only [Except.ok.injEq] at hp
            simp [← hp, List.filter_cons, hty, ih rs hr]

theorem parseAux_missing_name :
    ∀ (xcs : List XCheck) (acc : Checks),
      (∃ xc ∈ xcs, xc.checkName = none) →
      parseAux acc xcs = Except.error PyErr.attributeError := by
  intro xcs
  induction xcs with
  | nil => intro acc h; simp at h
  | cons xc rest ih =>
    intro acc h
    cases hname : xc.checkName with
    | none => simp [parseAux, hname]
    | some nm =>
      simp only [parseAux, hname]
      rcases h with ⟨y, hy, hyname⟩
      rcases List.mem_cons.mp hy with rfl | hmem
      · rw [hname] at hyname; exact absurd hyname (by simp)
      · exact ih _ ⟨y, hmem, hyname⟩

/-! ### Claim theorems -/

/-- C1: a performance `CountOnly` rule whose first filter's value parses as
an integer threshold `t` yields exactly one `CheckResult`, with `result` the
number of records whose value at the first filter's property is present and
truthy, status `Failed` iff that count exceeds `t` (`Passed` iff it is at
most `t`), and message the rule's failure message when failed, else the
empty string. -/
theorem C1_count_only_semantics (model : List Record) (c : Check) (f : BFilter)
    (fs : List BFilter) (t : Int)
    (hty : c.type = some "CountOnly") (hf : c.filters = f :: fs)
    (ht : pyInt f.value = Except.ok t) :
    ∃ r : CheckResult,
      check_performance model [c] = Except.ok [r] ∧
      r.name = c.name ∧
      r.result = some (countTruthy model f.property) ∧
      (r.status = "Failed" ↔ (countTruthy model f.property : Int) > t) ∧
      (r.status = "Passed" ↔ (countTruthy model f.property : Int) ≤ t) ∧
      r.message = (if (countTruthy model f.property : Int) > t
                    then c.failure_message else some "") := by
  refine ⟨{ name := c.name, result := some (countTruthy model f.property),
            status := if (countTruthy model f.property : Int) ≤ t
                      then "Passed" else "Failed",
            message := if (countTruthy model f.property : Int) > t
                       then c.failure_message else some "" },
          ?_, rfl, rfl, ?_, ?_, rfl⟩
  · simp [check_performance, hty, hf, ht]
  · by_cases hle : (countTruthy model f.property : Int) ≤ t
    · rw [if_pos hle]
      constructor
      · intro hx; exact absurd hx (by simp)
      · intro hgt; exact absurd hgt (not_lt.mpr hle)
    · rw [if_neg hle]
      constructor
      · intro _; exact not_le.mp hle
      · intro _; rfl
  · by_cases hle : (countTruthy model f.property : Int) ≤ t
    · rw [if_pos hle]
      exact ⟨fun _ => hle, fun _ => rfl⟩
    · rw [if_neg hle]
      constructor
      · intro hx; exact absurd hx (by simp)
      · intro hle2; exact absurd hle2 hle

/-- C1 witness: `perfGood` (threshold 10) on a model with one truthy and
one falsy `IsWall` record. -/
theorem C1_count_only_semantics_witness :
    (toCheckInfo perfGood).type = some "CountOnly" ∧
    (toCheckInfo perfGood).filters = fW :: [] ∧
    pyInt fW.value = Except.ok 10 ∧
    (∃ r : CheckResult,
      check_performance modelW [toCheckInfo perfGood] = Except.ok [r] ∧
      r.name = (toCheckInfo perfGood).name ∧
      r.result = some (countTruthy modelW fW.property) ∧
      (r.status = "Failed" ↔ (countTruthy modelW fW.property : Int) > 10) ∧
      (r.status = "Passed" ↔ (countTruthy modelW fW.property : Int) ≤ 10) ∧
      r.message = (if (countTruthy modelW fW.property : Int) > 10
                    then (toCheckInfo perfGood).failure_message else some "")) :=
  ⟨rfl, rfl, rfl,
   C1_count_only_semantics modelW (toCheckInfo perfGood) fW [] 10 rfl rfl rfl⟩

/-- C2: a location rule yields exactly one `CheckResult`; it is `Passed`
(with empty message) iff every record's value at every filter's property
equals the filter's value, `Failed` with the rule's failure message
otherwise; a rule with no filters passes; and the rule's outcome is already
fixed (Failed, with the failure message) by the first record that fails a
filter, independently of all later records; a record fails as soon as one
filter mismatches, independently of the remaining filters. -/
theorem C2_location_semantics (model : List Record) (c : Check) :
    (∃ r : CheckResult,
      check_location model [c] = [r] ∧
      r.name = c.name ∧
      r.result = none ∧
      (r.status = "Passed" ↔
        ∀ obj ∈ model, ∀ f ∈ c.filters,
          pyValEq (pyGetF obj f.property) f.value = true) ∧
      (r.status = "Passed" → r.message = some "") ∧
      (r.status = "Failed" → r.message = c.failure_message) ∧
      (r.status = "Passed" ∨ r.status = "Failed") ∧
      (c.filters = [] → r.status = "Passed")) ∧
    (∀ (pre suf : List Record) (obj : Record),
      recordPassed obj c.filters = false →
      check_location (pre ++ obj :: suf) [c]
        = [{ name := c.name, result := none, status := "Failed",
             message := c.failure_message }]) ∧
    (∀ (obj : Record) (fpre fsuf : List BFilter) (f : BFilter),
      pyValEq (pyGetF obj f.property) f.value = false →
      recordPassed obj (fpre ++ f :: fsuf) = false) := by
  refine ⟨⟨{ name := c.name, result := none,
             status := if locPassedAux c.filters model then "Passed" else "Failed",
             message := if locPassedAux c.filters model then some ""
                        else c.failure_message },
           ?_, rfl, rfl, ?_, ?_, ?_, ?_, ?_⟩, ?_, ?_⟩
  · simp [check_location]
  · cases hp : locPassedAux c.filters model with
    | true =>
      simp only [hp, if_true]
      constructor
      · intro _ obj hobj g hg
        have hob := (locPassedAux_true_iff c.filters model).mp hp obj hobj
        exact (recordPassed_true_iff obj c.filters).mp hob g hg
      · intro _; trivial
    | false =>
      simp only [hp, Bool.false_eq_true, if_false]
      constructor
      · intro hx; exact absurd hx (by simp)
      · intro hall
        have hptrue : locPassedAux c.filters model = true := by
          rw [locPassedAux_true_iff]
          intro obj hobj
          rw [recordPassed_true_iff]
          intro g hg
          exact hall obj hobj g hg
        rw [hp] at hptrue
        exact absurd hptrue (by decide)
  · cases hp : locPassedAux c.filters model with
    | true => intro _; simp
    | false =>
      intro hx
      exact absurd hx (by simp)
  · cases hp : locPassedAux c.filters model with
    | true =>
      intro hx
      exact absurd hx (by simp)
    | false => intro _; simp
  · cases hp : locPassedAux c.filters model with
    | true => left; simp
    | false => right; simp
  · intro hnil
    simp [hnil, locPassedAux_nil]
  · intro pre suf obj h
    have hfa := locPassedAux_mid_false c.filters pre suf obj h
    simp [check_location, hfa]
  · intro obj fpre fsuf f h
    exact recordPassed_mid_false obj fpre fsuf f h

/-- C2 witness: scenario B of the spec — `locLevel` over records with
levels L1, L2, L1; the mismatch at the second record fixes the rule's
result regardless of the third record. -/
theorem C2_location_semantics_witness :
    recordPassed [("Level", PyVal.vStr "L2")] (toCheckInfo locLevel).filters = false ∧
    check_location
        ([[("Level", PyVal.vStr "L1")]] ++
          [("Level", PyVal.vStr "L2")] :: [[("Level", PyVal.vStr "L1")]])
        [toCheckInfo locLevel]
      = [{ name := (toCheckInfo locLevel).name, result := none, status := "Failed",
           message := (toCheckInfo locLevel).failure_message }] :=
  ⟨rfl,
   (C2_location_semantics [] (toCheckInfo locLevel)).2.1
     [[("Level", PyVal.vStr "L1")]] [[("Level", PyVal.vStr "L1")]]
     [("Level", PyVal.vStr "L2")] rfl⟩

/-- C3: categorization is a case-insensitive substring match in the fixed
priority order performance, location, view, family, defaulting to custom:
any name containing `performance` is Performance regardless of other
substrings, and a name containing both `location` and `view` but not
`performance` is Location. -/
theorem C3_categorize_priority :
    (∀ name : String, hasSub "performance".data (lowerChars name) = true →
        categorize name = Category.performance) ∧
    (∀ name : String, hasSub "performance".data (lowerChars name) = false →
        hasSub "location".data (lowerChars name) = true →
        hasSub "view".data (lowerChars name) = true →
        categorize name = Category.location) ∧
    (∀ name : String, categorize name =
        (if hasSub "performance".data (lowerChars name) then Category.performance
         else if hasSub "location".data (lowerChars name) then Category.location
         else if hasSub "view".data (lowerChars name) then Category.views
         else if hasSub "family".data (lowerChars name) then Category.family
         else Category.custom)) := by
  refine ⟨?_, ?_, ?_⟩
  · intro name h; simp [categorize, h]
  · intro name hp hl _; simp [categorize, hp, hl]
  · intro name; rfl

/-- C3 witness: a mixed-case name containing all of performance, location
and view is Performance; a name with location and view but no performance
is Location. -/
theorem C3_categorize_priority_witness :
    hasSub "performance".data (lowerChars "PerFormanceLocationView") = true ∧
    hasSub "performance".data (lowerChars "MyLocationView") = false ∧
    hasSub "location".data (lowerChars "MyLocationView") = true ∧
    hasSub "view".data (lowerChars "MyLocationView") = true ∧
    categorize "PerFormanceLocationView" = Category.performance ∧
    categorize "MyLocationView" = Category.location :=
  ⟨by decide, by decide, by decide, by decide,
   C3_categorize_priority.1 "PerFormanceLocationView" (by decide),
   C3_categorize_priority.2.1 "MyLocationView" (by decide) (by decide) (by decide)⟩

/-- C4 (code behavior at the failing input): a performance `CountOnly` rule
whose threshold string is not numeric makes `int(...)` raise `ValueError`,
which aborts the whole run — even the preceding well-formed rule's already
computed result is lost, so the failure is fatal, not per-rule. -/
theorem C4_nonnumeric_threshold_aborts_run :
    run_all_checks [] [perfGood, perfBadThreshold]
      = Except.error PyErr.valueError := rfl

/-- C5 (code behavior at the failing input): a performance `CountOnly` rule
with an empty filter list makes `check['filters'][0]` raise `IndexError`,
which aborts the whole run — the well-formed location rule in the same file
is never evaluated and no results are returned. -/
theorem C5_empty_filters_aborts_run :
    run_all_checks [] [perfNoFilters, locLevel]
      = Except.error PyErr.indexError := rfl

/-- C6 counterexample: a Location-category rule with an unrecognized
`checkType` is not skipped — `check_location` ignores the check type, so
the run produces a `CheckResult` for it. -/
theorem C6_unrecognized_type_counterexample :
    run_all_checks [] [locBogusType]
      = Except.ok [{ name := some "locationBogusType", result := none,
                     status := "Passed", message := some "" }] := rfl

/-- C6 amended: a Performance-category rule whose check type is not
`CountOnly` produces no `CheckResult`, and a rule categorized views,
family or custom produces none; but a Location-category rule always
produces exactly one `CheckResult`, whatever its check type. -/
theorem C6_amended_skip_semantics (model : List Record) (c : Check) :
    (c.type ≠ some "CountOnly" → check_performance model [c] = Except.ok []) ∧
    (∃ r : CheckResult, check_location model [c] = [r] ∧ r.name = c.name) ∧
    (∀ (xc : XCheck) (nm : String), xc.checkName = some nm →
      (categorize nm = Category.views ∨ categorize nm = Category.family ∨
        categorize nm = Category.custom) →
      run_all_checks model [xc] = Except.ok []) := by
  refine ⟨?_, ?_, ?_⟩
  · intro h
    have hty : (c.type == some "CountOnly") = false := by
      rw [beq_eq_false_iff_ne]; exact h
    simp [check_performance, hty]
  · exact ⟨{ name := c.name, result := none,
             status := if locPassedAux c.filters model then "Passed" else "Failed",
             message := if locPassedAux c.filters model then some ""
                        else c.failure_message },
           by simp [check_location], rfl⟩
  · intro xc nm hname hcat
    rcases hcat with h | h | h <;>
      simp [run_all_checks, parse_xml_requirements, parseAux, hname, h, addCheck,
        emptyChecks, check_performance, check_location]

/-- C6 amended witness: a performance rule of type `SomethingElse` yields
no performance result, and a views-category rule yields an empty run. -/
theorem C6_amended_skip_semantics_witness :
    cNoCount.type ≠ some "CountOnly" ∧
    check_performance [] [cNoCount] = Except.ok [] ∧
    viewRule.checkName = some "sheetView" ∧
    (categorize "sheetView" = Category.views ∨
      categorize "sheetView" = Category.family ∨
      categorize "sheetView" = Category.custom) ∧
    run_all_checks [] [viewRule] = Except.ok [] :=
  ⟨by decide, (C6_amended_skip_semantics [] cNoCount).1 (by decide), rfl,
   Or.inl (by decide),
   (C6_amended_skip_semantics [] cNoCount).2.2 viewRule "sheetView" rfl
     (Or.inl (by decide))⟩

/-- C7: when parsing succeeds and the performance evaluator succeeds, the
run's output is exactly the performance results followed by the location
results; each evaluator's results carry the rule names in original
document order (performance restricted to `CountOnly` rules, location all
rules); and the run's output is a function only of the performance and
location rule lists, so views/family/custom rules contribute nothing. -/
theorem C7_aggregation_order (model : List Record) (xcs : List XCheck)
    (ch : Checks) (h : parse_xml_requirements xcs = Except.ok ch) :
    (∀ p : List CheckResult, check_performance model ch.performance = Except.ok p →
        run_all_checks model xcs = Except.ok (p ++ check_location model ch.location) ∧
        p.map CheckResult.name
          = (ch.performance.filter (fun c => c.type == some "CountOnly")).map Check.name) ∧
    ((check_location model ch.location).map CheckResult.name
        = ch.location.map Check.name) ∧
    (∀ (xcs2 : List XCheck) (ch2 : Checks),
        parse_xml_requirements xcs2 = Except.ok ch2 →
        ch2.performance = ch.performance → ch2.location = ch.location →
        run_all_checks model xcs2 = run_all_checks model xcs) := by
  refine ⟨?_, ?_, ?_⟩
  · intro p hp
    constructor
    · simp [run_all_checks, h, hp]
    · exact check_performance_names model ch.performance p hp
  · simp [check_location, List.map_map, Function.comp]
  · intro xcs2 ch2 h2 hperf hloc
    simp [run_all_checks, h, h2, hperf, hloc]

/-- C7 witness: the mixed rule file `xcsW` on an empty model yields the
performance result followed by the location results. -/
theorem C7_aggregation_order_witness :
    parse_xml_requirements xcsW = Except.ok chW ∧
    check_performance [] chW.performance = Except.ok pW ∧
    run_all_checks [] xcsW = Except.ok (pW ++ check_location [] chW.location) :=
  ⟨rfl, rfl, ((C7_aggregation_order [] xcsW chW rfl).1 pW rfl).1⟩

/-- C8: a `Check` element with no `CheckName` attribute aborts the whole
parse (the `AttributeError` from `None.lower()` realizes the spec's
`MissingRuleName`), and the run returns no results at all — not even for
well-formed rules before or after it. -/
theorem C8_missing_name_fatal (model : List Record) (xcs : List XCheck)
    (h : ∃ xc ∈ xcs, xc.checkName = none) :
    parse_xml_requirements xcs = Except.error PyErr.attributeError ∧
    run_all_checks model xcs = Except.error PyErr.attributeError := by
  have hp := parseAux_missing_name xcs emptyChecks h
  constructor
  · exact hp
  · simp [run_all_checks, parse_xml_requirements, hp]

/-- C8 witness: a rule file with a well-formed rule followed by an unnamed
`Check` yields a fatal parse error and no results. -/
theorem C8_missing_name_fatal_witness :
    (∃ xc ∈ [perfGood, unnamedCheck], xc.checkName = none) ∧
    run_all_checks [] [perfGood, unnamedCheck]
      = Except.error PyErr.attributeError :=
  ⟨⟨unnamedCheck, by decide, rfl⟩,
   (C8_missing_name_fatal [] [perfGood, unnamedCheck]
     ⟨unnamedCheck, by decide, rfl⟩).2⟩

/-- C9: the full pipeline is a deterministic pure function of the rule
file and the record sequence — two runs on equal inputs yield equal
ordered result sequences (the embedding is a total pure function; the
source core mutates no shared state). -/
theorem C9_determinism (m1 m2 : List Record) (x1 x2 : List XCheck)
    (hm : m1 = m2) (hx : x1 = x2) :
    run_all_checks m1 x1 = run_all_checks m2 x2 := by
  rw [hm, hx]

/-- C9 witness: two identical runs on a concrete input coincide. -/
theorem C9_determinism_witness :
    ([] : List Record) = [] ∧ [perfGood] = [perfGood] ∧
    run_all_checks [] [perfGood] = run_all_checks [] [perfGood] :=
  ⟨rfl, rfl, C9_determinism [] [] [perfGood] [perfGood] rfl rfl⟩

/-- C10: on a record lacking a filter's property, `dict.get` yields `None`,
which is unequal to every present filter value string — so that pair
mismatches and the rule fails immediately; a filter whose `Value`
attribute is absent compares equal to the absent property, so it never
causes a mismatch on records lacking that property. -/
theorem C10_absent_property_semantics (obj : Record) (p v : String)
    (cond : Option String) (h : lookupRec obj p = none) :
    pyGetF obj (some p) = PyVal.vNone ∧
    pyValEq (pyGetF obj (some p)) (some v) = false ∧
    (∀ fs : List BFilter,
        recordPassed obj
          ({ property := some p, condition := cond, value := some v } :: fs) = false) ∧
    pyValEq (pyGetF obj (some p)) (none : Option String) = true ∧
    (∀ fs : List BFilter,
        recordPassed obj
            ({ property := some p, condition := cond, value := none } :: fs)
          = recordPassed obj fs) ∧
    (∀ c : Check,
        c.filters = [{ property := some p, condition := cond, value := some v }] →
        check_location [obj] [c]
          = [{ name := c.name, result := none, status := "Failed",
               message := c.failure_message }]) := by
  have hget : pyGetF obj (some p) = PyVal.vNone := by
    simp [pyGetF, pyGet, h]
  have hfalse : pyValEq (pyGetF obj (some p)) (some v) = false := by
    rw [hget]; rfl
  have htrue : pyValEq (pyGetF obj (some p)) (none : Option String) = true := by
    rw [hget]; rfl
  refine ⟨hget, hfalse, ?_, htrue, ?_, ?_⟩
  · intro fs
    simp [recordPassed, hfalse]
  · intro fs
    simp [recordPassed, htrue]
  · intro c hc
    simp [check_location, hc, locPassedAux, recordPassed, hfalse]

/-- C10 witness: a record without `Level` fails the `locLevel` rule, whose
filter requires `Level == "L1"`. -/
theorem C10_absent_property_semantics_witness :
    lookupRec objW "Level" = none ∧
    check_location [objW] [toCheckInfo locLevel]
      = [{ name := (toCheckInfo locLevel).name, result := none,
           status := "Failed",
           message := (toCheckInfo locLevel).failure_message }] :=
  ⟨rfl,
   (C10_absent_property_semantics objW "Level" "L1" none rfl).2.2.2.2.2
     (toCheckInfo locLevel) rfl⟩

end BimCheck
